import Mathlib

/-!
Shallow embedding of `src/SerialController/TestImageRecognition.py`,
centred on the `getInterframeDiff` routine (the MotionMaskComputer of the
specification) and the OpenCV primitives it calls:

* `cv2.absdiff`     — per-pixel absolute difference; on an operand-shape
                      disagreement a scalar-convertible operand (a 1×1
                      matrix, or a 4-element 1×4 / 4×1 one) is broadcast
                      per-pixel instead, and otherwise an unmatched-sizes
                      error is raised;
* `cv2.bitwise_and` — per-pixel bitwise AND, same shape/scalar rule;
* `cv2.threshold`   — `THRESH_BINARY`: `maxval` where `src > thresh`, else 0
                      (no validation of the threshold value);
* `cv2.medianBlur`  — aperture-3 median filter; border pixels are handled
                      with `BORDER_REPLICATE` (coordinates clamped into the
                      image), as documented for `medianBlur`.

Single-channel images are modelled as a height, a width and a total pixel
function `Nat → Nat → Nat`; 8-bit-ness of the samples is expressed by the
predicate `Frame8` where a claim quantifies over 8-bit frames.
-/

/-- A single-channel image: height, width and pixel lookup. -/
structure Image where
  h : Nat
  w : Nat
  pix : Nat → Nat → Nat

/-- Errors raised by the modelled OpenCV primitives: the only failure the
routine can hit is an operand-shape mismatch inside `cv2.absdiff` /
`cv2.bitwise_and`. -/
inductive CvError where
  | dimensionMismatch
deriving DecidableEq

/-- All in-range samples fit in 8 bits. -/
def Frame8 (f : Image) : Prop := ∀ r < f.h, ∀ c < f.w, f.pix r c ≤ 255

instance (f : Image) : Decidable (Frame8 f) := by
  unfold Frame8; infer_instance

/-- Absolute difference of two naturals, the per-pixel operation of
`cv2.absdiff` on 8-bit samples. -/
def absd (a b : Nat) : Nat := max a b - min a b

/-- Clamp an integer coordinate into `[0, n-1]` (`BORDER_REPLICATE`). -/
def clampI (n : Nat) (x : Int) : Nat := (max 0 (min x ((n : Int) - 1))).toNat

/-- Pixel lookup at clamped (replicated-border) integer coordinates. -/
def Image.pixC (m : Image) (i j : Int) : Nat := m.pix (clampI m.h i) (clampI m.w j)

/-- Insertion into a sorted list of naturals. -/
def insertN (x : Nat) : List Nat → List Nat
  | [] => [x]
  | y :: ys => if x ≤ y then x :: y :: ys else y :: insertN x ys

/-- Insertion sort on naturals. -/
def sortN : List Nat → List Nat
  | [] => []
  | x :: xs => insertN x (sortN xs)

/-- Median of a 9-element sample list: the middle (index-4) element of the
sorted list, as `medianBlur` computes for a 3×3 aperture. -/
def median9 (l : List Nat) : Nat := (sortN l).getD 4 0

/-- The 3×3 neighbourhood of pixel `(i, j)`, with `BORDER_REPLICATE`
clamping, listed in row-major order. -/
def nbhd3 (m : Image) (i j : Nat) : List Nat :=
  [m.pixC ((i : Int) - 1) ((j : Int) - 1), m.pixC ((i : Int) - 1) (j : Int),
   m.pixC ((i : Int) - 1) ((j : Int) + 1),
   m.pixC (i : Int) ((j : Int) - 1), m.pixC (i : Int) (j : Int),
   m.pixC (i : Int) ((j : Int) + 1),
   m.pixC ((i : Int) + 1) ((j : Int) - 1), m.pixC ((i : Int) + 1) (j : Int),
   m.pixC ((i : Int) + 1) ((j : Int) + 1)]

/-- Shape-unchecked per-pixel absolute difference grid. -/
def absdiffImage (a b : Image) : Image :=
  ⟨a.h, a.w, fun i j => absd (a.pix i j) (b.pix i j)⟩

/-- Shape-unchecked per-pixel bitwise AND grid. -/
def andImage (a b : Image) : Image :=
  ⟨a.h, a.w, fun i j => Nat.land (a.pix i j) (b.pix i j)⟩

/-- `cv2.threshold(m, t, maxval, THRESH_BINARY)[1]`: `maxval` where the
sample strictly exceeds `t`, else 0.  OpenCV accepts any `t`; no range
check is performed. -/
def cvThreshold (m : Image) (t : Int) (maxval : Nat) : Image :=
  ⟨m.h, m.w, fun i j => if t < (m.pix i j : Int) then maxval else 0⟩

/-- `cv2.medianBlur(m, 3)`: 3×3 median with replicated borders. -/
def cvMedianBlur3 (m : Image) : Image :=
  ⟨m.h, m.w, fun i j => median9 (nbhd3 m i j)⟩

/-- OpenCV's `checkScalar` in the binary arithmetic ops: on a shape
disagreement, an operand is still accepted — as a per-pixel-broadcast
scalar — when it is a 1×1 matrix or a 4-element 1×4 / 4×1 one. -/
def checkScalar (f : Image) : Prop :=
  (f.h = 1 ∧ f.w = 1) ∨ (f.h = 1 ∧ f.w = 4) ∨ (f.h = 4 ∧ f.w = 1)

instance (f : Image) : Decidable (checkScalar f) := by
  unfold checkScalar; infer_instance

/-- A scalar-convertible operand broadcast to the other operand's shape:
for a single-channel destination the scalar's first element (pixel
(0,0)) is used at every pixel. -/
def asConst (s : Image) (h w : Nat) : Image := ⟨h, w, fun _ _ => s.pix 0 0⟩

/-- `cv2.absdiff`: elementwise on equal shapes; on a shape disagreement a
scalar-convertible operand (second operand checked first) is broadcast,
and otherwise the unmatched-sizes error is raised. -/
def cvAbsdiff (a b : Image) : Except CvError Image :=
  if a.h = b.h ∧ a.w = b.w then .ok (absdiffImage a b)
  else if checkScalar b then .ok (absdiffImage a (asConst b a.h a.w))
  else if checkScalar a then .ok (absdiffImage (asConst a b.h b.w) b)
  else .error .dimensionMismatch

/-- `cv2.bitwise_and`: same shape/scalar-broadcast rule as `cv2.absdiff`. -/
def cvBitwiseAnd (a b : Image) : Except CvError Image :=
  if a.h = b.h ∧ a.w = b.w then .ok (andImage a b)
  else if checkScalar b then .ok (andImage a (asConst b a.h a.w))
  else if checkScalar a then .ok (andImage (asConst a b.h b.w) b)
  else .error .dimensionMismatch

/-- `getInterframeDiff` from `TestImageRecognition.py`, line for line:
two `cv2.absdiff`s, a `cv2.bitwise_and`, binarisation at `threshold`
with max value 255, then a 3×3 median blur. -/
def getInterframeDiff (frame1 frame2 frame3 : Image) (threshold : Int) :
    Except CvError Image :=
  match cvAbsdiff frame1 frame2 with
  | .error e => .error e
  | .ok diff1 =>
    match cvAbsdiff frame2 frame3 with
    | .error e => .error e
    | .ok diff2 =>
      match cvBitwiseAnd diff1 diff2 with
      | .error e => .error e
      | .ok diff => .ok (cvMedianBlur3 (cvThreshold diff threshold 255))

/-- The pure value computed by `getInterframeDiff` on shape-compatible
inputs (the composition of the four grid operations). -/
def interframePipeline (frame1 frame2 frame3 : Image) (threshold : Int) : Image :=
  cvMedianBlur3
    (cvThreshold (andImage (absdiffImage frame1 frame2) (absdiffImage frame2 frame3))
      threshold 255)

/-- Indicator of a 255-valued sample. -/
def ind255 (x : Nat) : Nat := if x = 255 then 1 else 0

/-- Number of 255-valued samples in a list. -/
def cnt255 (l : List Nat) : Nat := (l.map ind255).sum

/-- Number of in-range 255-valued samples of an image. -/
def count255 (m : Image) : Nat :=
  ((List.range m.h).map
    (fun i => ((List.range m.w).map (fun j => ind255 (m.pix i j))).sum)).sum

/-- §4.1 step 1/2 of the specification, transcribed: per-pixel absolute
difference of two frames. -/
def specAbsdiff (a b : Image) : Image :=
  ⟨a.h, a.w, fun i j => ((a.pix i j : Int) - (b.pix i j : Int)).natAbs⟩

/-- §4.1 step 3 of the specification, transcribed: per-pixel bitwise AND. -/
def specBitAnd (d1 d2 : Image) : Image :=
  ⟨d1.h, d1.w, fun i j => Nat.land (d1.pix i j) (d2.pix i j)⟩

/-- §4.1 step 4 of the specification, transcribed: 255 where the sample
strictly exceeds the threshold, else 0. -/
def specBinarize (m : Image) (t : Int) : Image :=
  ⟨m.h, m.w, fun i j => if t < (m.pix i j : Int) then 255 else 0⟩

/-- §4.1 of the specification, transcribed step by step: the two absolute
differences, their bitwise AND, binarisation, then the 3×3 median filter
(step 5 names the same 3×3 median filter the code calls, so the median
step is shared). -/
def specComputeMask (frameA frameB frameC : Image) (threshold : Int) : Image :=
  cvMedianBlur3
    (specBinarize (specBitAnd (specAbsdiff frameA frameB) (specAbsdiff frameB frameC))
      threshold)

/-- The AND-after-threshold variant named by §9 of the specification:
binarize each difference grid against the threshold, combine with the
bitwise AND, then median filter. -/
def andAfterThreshold (frameA frameB frameC : Image) (threshold : Int) : Image :=
  cvMedianBlur3
    (specBitAnd (specBinarize (specAbsdiff frameA frameB) threshold)
      (specBinarize (specAbsdiff frameB frameC) threshold))

/-- Constant frame. -/
def constImg (h w g : Nat) : Image := ⟨h, w, fun _ _ => g⟩

/-- Frame that is `g` everywhere except value `v` at pixel `(i, j)`. -/
def spikeImg (h w g v i j : Nat) : Image :=
  ⟨h, w, fun r c => if r = i ∧ c = j then v else g⟩

/-- Frame that is `g` everywhere except value `v` on the 3×3 block with
rows and columns 1..3. -/
def blockImg (h w g v : Nat) : Image :=
  ⟨h, w, fun r c => if 1 ≤ r ∧ r ≤ 3 ∧ 1 ≤ c ∧ c ≤ 3 then v else g⟩

/-- On same-shape inputs `getInterframeDiff` succeeds and returns the
pipeline value, for every threshold. -/
theorem getInterframeDiff_ok (f1 f2 f3 : Image) (t : Int)
    (hh12 : f1.h = f2.h) (hw12 : f1.w = f2.w)
    (hh23 : f2.h = f3.h) (hw23 : f2.w = f3.w) :
    getInterframeDiff f1 f2 f3 t = .ok (interframePipeline f1 f2 f3 t) := by
  simp [getInterframeDiff, cvAbsdiff, cvBitwiseAnd, absdiffImage,
    interframePipeline, hh12, hw12, hh23, hw23, Except.map]

/-- For nine samples that are each 0 or 255, the 3×3 median is 255 exactly
when at least five of them are 255, and 0 otherwise. -/
theorem med9_binary (a b c d e f g h i : Nat)
    (ha : a = 0 ∨ a = 255) (hb : b = 0 ∨ b = 255) (hc : c = 0 ∨ c = 255)
    (hd : d = 0 ∨ d = 255) (he : e = 0 ∨ e = 255) (hf : f = 0 ∨ f = 255)
    (hg : g = 0 ∨ g = 255) (hh : h = 0 ∨ h = 255) (hi : i = 0 ∨ i = 255) :
    median9 [a, b, c, d, e, f, g, h, i] =
      if 5 ≤ cnt255 [a, b, c, d, e, f, g, h, i] then 255 else 0 := by
  rcases ha with rfl | rfl <;> rcases hb with rfl | rfl <;>
    rcases hc with rfl | rfl <;> rcases hd with rfl | rfl <;>
    rcases he with rfl | rfl <;> rcases hf with rfl | rfl <;>
    rcases hg with rfl | rfl <;> rcases hh with rfl | rfl <;>
    rcases hi with rfl | rfl <;> decide

/-- Every sample of a binarised image is 0 or 255. -/
theorem thr_pix_binary (m : Image) (t : Int) (x y : Nat) :
    (cvThreshold m t 255).pix x y = 0 ∨ (cvThreshold m t 255).pix x y = 255 := by
  by_cases hxy : t < (m.pix x y : Int)
  · right; simp [cvThreshold, hxy]
  · left; simp [cvThreshold, hxy]

/-- Median blur of an everywhere-binary image, per pixel: 255 exactly when
at least five of the nine (replicated-border) neighbourhood samples are
255. -/
theorem cvMedianBlur3_pix_binary (m : Image)
    (hbin : ∀ x y, m.pix x y = 0 ∨ m.pix x y = 255) (r c : Nat) :
    (cvMedianBlur3 m).pix r c = if 5 ≤ cnt255 (nbhd3 m r c) then 255 else 0 :=
  med9_binary _ _ _ _ _ _ _ _ _ (hbin _ _) (hbin _ _) (hbin _ _) (hbin _ _)
    (hbin _ _) (hbin _ _) (hbin _ _) (hbin _ _) (hbin _ _)

/-- The pipeline mask, per pixel: 255 exactly when at least five of the
nine neighbourhood samples of the binarised AND-difference grid are 255. -/
theorem interframePipeline_pix (f1 f2 f3 : Image) (t : Int) (r c : Nat) :
    (interframePipeline f1 f2 f3 t).pix r c =
      if 5 ≤ cnt255
          (nbhd3 (cvThreshold (andImage (absdiffImage f1 f2) (absdiffImage f2 f3)) t 255)
            r c)
      then 255 else 0 :=
  cvMedianBlur3_pix_binary _ (fun x y => thr_pix_binary _ t x y) r c

/-- `absd` agrees with the absolute value of the integer difference. -/
theorem absd_natAbs (a b : Nat) : absd a b = ((a : Int) - (b : Int)).natAbs := by
  unfold absd; omega

/-- `absd` of equal samples is zero. -/
theorem absd_self (a : Nat) : absd a a = 0 := by
  simp [absd]

/-- Clamping hits an interior index exactly at that index. -/
theorem clampI_eq_iff (n i : Nat) (x : Int) (hi0 : 0 < i) (hin : i + 1 < n) :
    clampI n x = i ↔ x = (i : Int) := by
  unfold clampI; omega

/-- Claim C2: on valid (same-dimension, 8-bit) inputs and a valid
threshold, `getInterframeDiff` returns a mask of the same dimensions as
the input frames, every sample of which is exactly 0 or exactly 255. -/
theorem mask_dims_and_binary (f1 f2 f3 : Image) (t : Int)
    (h8a : Frame8 f1) (h8b : Frame8 f2) (h8c : Frame8 f3)
    (hh12 : f1.h = f2.h) (hw12 : f1.w = f2.w)
    (hh23 : f2.h = f3.h) (hw23 : f2.w = f3.w)
    (ht0 : 0 ≤ t) (ht1 : t ≤ 255) :
    ∃ m, getInterframeDiff f1 f2 f3 t = .ok m ∧ m.h = f1.h ∧ m.w = f1.w ∧
      ∀ r < m.h, ∀ c < m.w, m.pix r c = 0 ∨ m.pix r c = 255 := by
  refine ⟨interframePipeline f1 f2 f3 t,
    getInterframeDiff_ok f1 f2 f3 t hh12 hw12 hh23 hw23, rfl, rfl, ?_⟩
  intro r _ c _
  rw [interframePipeline_pix]
  split
  · right; rfl
  · left; rfl

/-- Witness for C2 at concrete 2×2 frames and threshold 15. -/
theorem mask_dims_and_binary_witness :
    ∃ m, getInterframeDiff (constImg 2 2 10) (constImg 2 2 10) (constImg 2 2 10) 15
        = .ok m ∧ m.h = (constImg 2 2 10).h ∧ m.w = (constImg 2 2 10).w ∧
      ∀ r < m.h, ∀ c < m.w, m.pix r c = 0 ∨ m.pix r c = 255 :=
  mask_dims_and_binary (constImg 2 2 10) (constImg 2 2 10) (constImg 2 2 10) 15
    (by decide) (by decide) (by decide) rfl rfl rfl rfl (by decide) (by decide)

/-- Counterexample to claim C4: called with threshold 300 (outside
[0, 255]) on valid same-dimension frames, `getInterframeDiff` does not
fail — it computes and returns a mask. -/
theorem invalid_threshold_not_rejected :
    getInterframeDiff (constImg 2 2 0) (constImg 2 2 0) (constImg 2 2 0) 300
        = .ok (interframePipeline (constImg 2 2 0) (constImg 2 2 0) (constImg 2 2 0) 300)
      ∧ (interframePipeline (constImg 2 2 0) (constImg 2 2 0) (constImg 2 2 0) 300).pix 0 0
        = 0 :=
  ⟨getInterframeDiff_ok _ _ _ _ rfl rfl rfl rfl, by decide⟩

/-- Claim C4 as amended: the code performs no threshold validation; a call
with a threshold outside [0, 255] on same-dimension frames still computes
and returns a mask (there is no invalid-threshold failure). -/
theorem invalid_threshold_returns_mask (f1 f2 f3 : Image) (t : Int)
    (hh12 : f1.h = f2.h) (hw12 : f1.w = f2.w)
    (hh23 : f2.h = f3.h) (hw23 : f2.w = f3.w)
    (hout : t < 0 ∨ 255 < t) :
    ∃ m, getInterframeDiff f1 f2 f3 t = .ok m :=
  ⟨_, getInterframeDiff_ok f1 f2 f3 t hh12 hw12 hh23 hw23⟩

/-- Witness for the amended C4 at threshold 300. -/
theorem invalid_threshold_returns_mask_witness :
    ∃ m, getInterframeDiff (constImg 3 3 0) (constImg 3 3 0) (constImg 3 3 0) 300
      = .ok m :=
  invalid_threshold_returns_mask _ _ _ 300 rfl rfl rfl rfl (by decide)

/-- Claim C5: on three equal frames and any strictly positive threshold,
`getInterframeDiff` succeeds and the returned mask is zero everywhere,
because both absolute differences are zero everywhere. -/
theorem equal_frames_zero_mask (F : Image) (t : Int) (ht : 0 < t) :
    getInterframeDiff F F F t = .ok (interframePipeline F F F t) ∧
      ∀ r c, (interframePipeline F F F t).pix r c = 0 := by
  refine ⟨getInterframeDiff_ok F F F t rfl rfl rfl rfl, ?_⟩
  intro r c
  have hbin : ∀ x y,
      (cvThreshold (andImage (absdiffImage F F) (absdiffImage F F)) t 255).pix x y
        = 0 := by
    intro x y
    have h0 : (andImage (absdiffImage F F) (absdiffImage F F)).pix x y = 0 := by
      simp [andImage, absdiffImage, absd_self]
      decide
    show (if t < ((andImage (absdiffImage F F) (absdiffImage F F)).pix x y : Int)
        then 255 else 0) = 0
    rw [h0, if_neg (by omega)]
  have hn : nbhd3 (cvThreshold (andImage (absdiffImage F F) (absdiffImage F F)) t 255) r c
      = [0, 0, 0, 0, 0, 0, 0, 0, 0] := by
    simp [nbhd3, Image.pixC, hbin]
  rw [interframePipeline_pix, hn]
  decide

/-- Witness for C5: equal 3×3 frames with threshold 1 give a zero mask
(sampled at pixel (1,1)). -/
theorem equal_frames_zero_mask_witness :
    (interframePipeline (constImg 3 3 7) (constImg 3 3 7) (constImg 3 3 7) 1).pix 1 1
      = 0 :=
  (equal_frames_zero_mask (constImg 3 3 7) 1 (by decide)).2 1 1

/-- Bitwise AND of a value with itself. -/
theorem land_self (d : Nat) : Nat.land d d = d := by
  show d &&& d = d
  simp

/-- `absd` is symmetric. -/
theorem absd_comm (a b : Nat) : absd a b = absd b a := by
  unfold absd
  rw [Nat.max_comm, Nat.min_comm]

/-- Images with equal dimensions and pointwise-equal pixel functions are
equal. -/
theorem Image.ext_pix {a b : Image} (hh : a.h = b.h) (hw : a.w = b.w)
    (hp : ∀ i j, a.pix i j = b.pix i j) : a = b := by
  cases a; cases b
  dsimp at hh hw hp
  subst hh; subst hw
  congr 1
  funext i j
  exact hp i j

/-- The step-by-step transcription of §4.1 computes the same image as the
code's pipeline. -/
theorem specComputeMask_eq_pipeline (A B C : Image) (t : Int) :
    specComputeMask A B C t = interframePipeline A B C t := by
  unfold specComputeMask interframePipeline
  refine congrArg cvMedianBlur3 ?_
  apply Image.ext_pix
  · rfl
  · rfl
  · intro i j
    simp [specBinarize, cvThreshold, specBitAnd, andImage, specAbsdiff, absdiffImage,
      absd_natAbs]

/-- Claim C1: on same-dimension 8-bit frames and any threshold,
`getInterframeDiff` returns exactly the mask described by the
specification pipeline: absolute difference, absolute difference, bitwise
AND, binarisation at the threshold, then the 3×3 median filter. -/
theorem getInterframeDiff_matches_spec (A B C : Image) (t : Int)
    (h8a : Frame8 A) (h8b : Frame8 B) (h8c : Frame8 C)
    (hh12 : A.h = B.h) (hw12 : A.w = B.w) (hh23 : B.h = C.h) (hw23 : B.w = C.w) :
    getInterframeDiff A B C t = .ok (specComputeMask A B C t) := by
  rw [getInterframeDiff_ok A B C t hh12 hw12 hh23 hw23, specComputeMask_eq_pipeline]

/-- Witness for C1 at concrete 3×3 frames and threshold 15. -/
theorem getInterframeDiff_matches_spec_witness :
    getInterframeDiff (constImg 3 3 5) (spikeImg 3 3 5 200 1 1) (constImg 3 3 9) 15
      = .ok (specComputeMask (constImg 3 3 5) (spikeImg 3 3 5 200 1 1) (constImg 3 3 9) 15) :=
  getInterframeDiff_matches_spec _ _ _ 15 (by decide) (by decide) (by decide)
    rfl rfl rfl rfl

/-- Indicator of a binarised sample, as a thresholded indicator. -/
theorem ind255_thr (t : Int) (d : Nat) :
    ind255 (if t < (d : Int) then 255 else 0) = if t < (d : Int) then 1 else 0 := by
  split <;> simp [ind255]

/-- A thresholded indicator is antitone in the threshold. -/
theorem thr_ind_mono (t1 t2 : Int) (h : t1 ≤ t2) (d : Nat) :
    (if t2 < (d : Int) then (1 : Nat) else 0) ≤ (if t1 < (d : Int) then 1 else 0) := by
  split_ifs <;> omega

/-- Raising the threshold cannot raise the number of 255-samples in any
3×3 neighbourhood of the binarised image. -/
theorem cnt255_nbhd_thr_mono (D : Image) (t1 t2 : Int) (h : t1 ≤ t2) (r c : Nat) :
    cnt255 (nbhd3 (cvThreshold D t2 255) r c)
      ≤ cnt255 (nbhd3 (cvThreshold D t1 255) r c) := by
  simp only [nbhd3, cnt255, List.map, List.sum_cons, List.sum_nil, Image.pixC,
    cvThreshold, ind255_thr]
  gcongr <;> exact thr_ind_mono t1 t2 h _

/-- Raising the threshold can only turn mask pixels off, pointwise. -/
theorem pipeline_pix_mono (f1 f2 f3 : Image) (t1 t2 : Int) (h12 : t1 ≤ t2) (r c : Nat)
    (h255 : (interframePipeline f1 f2 f3 t2).pix r c = 255) :
    (interframePipeline f1 f2 f3 t1).pix r c = 255 := by
  rw [interframePipeline_pix] at h255 ⊢
  have hle := cnt255_nbhd_thr_mono (andImage (absdiffImage f1 f2) (absdiffImage f2 f3))
    t1 t2 h12 r c
  by_cases h5 : 5 ≤ cnt255
      (nbhd3 (cvThreshold (andImage (absdiffImage f1 f2) (absdiffImage f2 f3)) t2 255)
        r c)
  · rw [if_pos (le_trans h5 hle)]
  · rw [if_neg h5] at h255
    exact absurd h255 (by decide)

/-- Pointwise 255-preservation bounds the global 255-count. -/
theorem count255_le (m2 m1 : Image) (hh : m2.h = m1.h) (hw : m2.w = m1.w)
    (hp : ∀ r c, m2.pix r c = 255 → m1.pix r c = 255) :
    count255 m2 ≤ count255 m1 := by
  unfold count255
  rw [hh, hw]
  apply List.sum_le_sum
  intro i _
  apply List.sum_le_sum
  intro j _
  unfold ind255
  split_ifs with h2 h1
  · exact le_refl 1
  · exact absurd (hp i j h2) h1
  · exact Nat.zero_le _
  · exact Nat.zero_le _

/-- Claim C6: for fixed same-dimension frames and valid thresholds
`t1 ≤ t2`, the mask computed at `t2` has no more 255-valued pixels than
the mask computed at `t1`. -/
theorem threshold_monotone_count (f1 f2 f3 : Image) (t1 t2 : Int)
    (hh12 : f1.h = f2.h) (hw12 : f1.w = f2.w)
    (hh23 : f2.h = f3.h) (hw23 : f2.w = f3.w)
    (ht0 : 0 ≤ t1) (ht12 : t1 ≤ t2) (ht255 : t2 ≤ 255)
    (m1 m2 : Image)
    (e1 : getInterframeDiff f1 f2 f3 t1 = .ok m1)
    (e2 : getInterframeDiff f1 f2 f3 t2 = .ok m2) :
    count255 m2 ≤ count255 m1 := by
  rw [getInterframeDiff_ok f1 f2 f3 t1 hh12 hw12 hh23 hw23] at e1
  rw [getInterframeDiff_ok f1 f2 f3 t2 hh12 hw12 hh23 hw23] at e2
  injection e1 with e1
  injection e2 with e2
  subst e1
  subst e2
  exact count255_le _ _ rfl rfl (fun r c => pipeline_pix_mono f1 f2 f3 t1 t2 ht12 r c)

/-- Witness for C6 at concrete frames and thresholds 10 ≤ 20. -/
theorem threshold_monotone_count_witness :
    count255 (interframePipeline (constImg 3 3 0) (constImg 3 3 50) (constImg 3 3 100) 20)
      ≤ count255
        (interframePipeline (constImg 3 3 0) (constImg 3 3 50) (constImg 3 3 100) 10) :=
  threshold_monotone_count (constImg 3 3 0) (constImg 3 3 50) (constImg 3 3 100) 10 20
    rfl rfl rfl rfl (by decide) (by decide) (by decide) _ _
    (getInterframeDiff_ok _ _ _ _ rfl rfl rfl rfl)
    (getInterframeDiff_ok _ _ _ _ rfl rfl rfl rfl)

/-- Indicator of a 0-or-255 conditional. -/
theorem ind255_ite (P : Prop) [Decidable P] :
    ind255 (if P then 255 else 0) = if P then 1 else 0 := by
  split <;> simp [ind255]

/-- Claim C7: with `A = C` uniform gray and `B` equal to them except one
interior pixel flipped to `v`, with `|v - g|` above the (valid) threshold,
the flipped pixel survives binarisation as 255, the call succeeds, and
the median filter removes the isolated speck: the final mask is zero
everywhere. -/
theorem isolated_pixel_suppressed (h w g v i j : Nat) (t : Int)
    (hi0 : 0 < i) (hih : i + 1 < h) (hj0 : 0 < j) (hjw : j + 1 < w)
    (ht0 : 0 ≤ t) (hd : t < (absd v g : Int)) :
    (cvThreshold (andImage (absdiffImage (constImg h w g) (spikeImg h w g v i j))
          (absdiffImage (spikeImg h w g v i j) (constImg h w g))) t 255).pix i j = 255
      ∧ getInterframeDiff (constImg h w g) (spikeImg h w g v i j) (constImg h w g) t
        = .ok (interframePipeline (constImg h w g) (spikeImg h w g v i j)
            (constImg h w g) t)
      ∧ ∀ r c,
          (interframePipeline (constImg h w g) (spikeImg h w g v i j)
            (constImg h w g) t).pix r c = 0 := by
  have hbin : ∀ x y,
      (cvThreshold (andImage (absdiffImage (constImg h w g) (spikeImg h w g v i j))
          (absdiffImage (spikeImg h w g v i j) (constImg h w g))) t 255).pix x y
        = if x = i ∧ y = j then 255 else 0 := by
    intro x y
    show (if t < ((andImage (absdiffImage (constImg h w g) (spikeImg h w g v i j))
        (absdiffImage (spikeImg h w g v i j) (constImg h w g))).pix x y : Int)
        then (255 : Nat) else 0) = _
    by_cases hxy : x = i ∧ y = j
    · have hx := hxy.1
      have hy := hxy.2
      subst hx
      subst hy
      have hpix : (andImage (absdiffImage (constImg h w g) (spikeImg h w g v x y))
          (absdiffImage (spikeImg h w g v x y) (constImg h w g))).pix x y
            = absd v g := by
        simp [andImage, absdiffImage, constImg, spikeImg, land_self, absd_comm g v]
      rw [hpix, if_pos hd, if_pos ⟨rfl, rfl⟩]
    · have hpix : (andImage (absdiffImage (constImg h w g) (spikeImg h w g v i j))
          (absdiffImage (spikeImg h w g v i j) (constImg h w g))).pix x y = 0 := by
        simp only [andImage, absdiffImage, constImg, spikeImg]
        rw [if_neg hxy, absd_self]
        decide
      rw [hpix, if_neg (by omega), if_neg hxy]
  have hbinC : ∀ (X Y : Int),
      Image.pixC (cvThreshold (andImage (absdiffImage (constImg h w g) (spikeImg h w g v i j))
          (absdiffImage (spikeImg h w g v i j) (constImg h w g))) t 255) X Y
        = if clampI h X = i ∧ clampI w Y = j then 255 else 0 := by
    intro X Y
    simp only [Image.pixC]
    rw [hbin]
    exact rfl
  have hri : ∀ x : Int, clampI h x = i ↔ x = (i : Int) :=
    fun x => clampI_eq_iff h i x hi0 hih
  have hcj : ∀ y : Int, clampI w y = j ↔ y = (j : Int) :=
    fun y => clampI_eq_iff w j y hj0 hjw
  refine ⟨by rw [hbin]; simp, getInterframeDiff_ok _ _ _ _ rfl rfl rfl rfl, ?_⟩
  intro r c
  rw [interframePipeline_pix]
  have hS : cnt255 (nbhd3 (cvThreshold (andImage
      (absdiffImage (constImg h w g) (spikeImg h w g v i j))
      (absdiffImage (spikeImg h w g v i j) (constImg h w g))) t 255) r c) ≤ 1 := by
    simp only [nbhd3, cnt255, List.map, List.sum_cons, List.sum_nil, hbinC, ind255_ite,
      hri, hcj]
    split_ifs <;> omega
  rw [if_neg (by omega)]

/-- Witness for C7: a 3×3 all-10 frame with the middle of frame B flipped
to 200, threshold 15 — the mask vanishes (sampled at the flipped pixel
and a neighbour). -/
theorem isolated_pixel_suppressed_witness :
    (interframePipeline (constImg 3 3 10) (spikeImg 3 3 10 200 1 1) (constImg 3 3 10)
        15).pix 1 1 = 0
      ∧ (interframePipeline (constImg 3 3 10) (spikeImg 3 3 10 200 1 1) (constImg 3 3 10)
        15).pix 0 0 = 0 :=
  ⟨(isolated_pixel_suppressed 3 3 10 200 1 1 15 (by decide) (by decide) (by decide)
      (by decide) (by decide) (by decide)).2.2 1 1,
   (isolated_pixel_suppressed 3 3 10 200 1 1 15 (by decide) (by decide) (by decide)
      (by decide) (by decide) (by decide)).2.2 0 0⟩

/-- Counterexample to claim C8: 5×5 frames whose rows/columns 1..3 form a
3×3 block changing 0 → 100 → 200 (per-transition difference 100 > 15 at
every block pixel) — yet the mask is 0 at the block's corner pixel (1,1),
because only four of its nine neighbourhood samples lie in the block.  So
not every pixel of the changed block is 255. -/
theorem block_corner_not_preserved :
    (∀ r < 4, ∀ c < 4, 1 ≤ r → 1 ≤ c →
        15 < absd ((constImg 5 5 0).pix r c) ((blockImg 5 5 0 100).pix r c)
          ∧ 15 < absd ((blockImg 5 5 0 100).pix r c) ((blockImg 5 5 0 200).pix r c))
      ∧ getInterframeDiff (constImg 5 5 0) (blockImg 5 5 0 100) (blockImg 5 5 0 200) 15
        = .ok (interframePipeline (constImg 5 5 0) (blockImg 5 5 0 100)
            (blockImg 5 5 0 200) 15)
      ∧ (interframePipeline (constImg 5 5 0) (blockImg 5 5 0 100) (blockImg 5 5 0 200)
          15).pix 1 1 = 0 :=
  ⟨by decide, getInterframeDiff_ok _ _ _ _ rfl rfl rfl rfl, by decide⟩

/-- Claim C8 as amended: a mask pixel is 255 whenever at least five of the
nine samples in its 3×3 (replicated-border) neighbourhood changed beyond
the threshold in both transitions — in particular every non-corner pixel
of a 3×3-or-larger consistently changed interior block; the block's
corner pixels are not guaranteed. -/
theorem majority_changed_neighborhood_survives (f1 f2 f3 : Image) (t : Int)
    (hh12 : f1.h = f2.h) (hw12 : f1.w = f2.w)
    (hh23 : f2.h = f3.h) (hw23 : f2.w = f3.w) (r c : Nat)
    (h5 : 5 ≤ cnt255
      (nbhd3 (cvThreshold (andImage (absdiffImage f1 f2) (absdiffImage f2 f3)) t 255)
        r c)) :
    ∃ m, getInterframeDiff f1 f2 f3 t = .ok m ∧ m.pix r c = 255 := by
  refine ⟨_, getInterframeDiff_ok f1 f2 f3 t hh12 hw12 hh23 hw23, ?_⟩
  rw [interframePipeline_pix, if_pos h5]

/-- Witness for the amended C8: the centre pixel (2,2) of the 3×3 changed
block has all nine neighbourhood samples above threshold and is 255. -/
theorem majority_changed_neighborhood_survives_witness :
    ∃ m, getInterframeDiff (constImg 5 5 0) (blockImg 5 5 0 100) (blockImg 5 5 0 200) 15
      = .ok m ∧ m.pix 2 2 = 255 :=
  majority_changed_neighborhood_survives (constImg 5 5 0) (blockImg 5 5 0 100)
    (blockImg 5 5 0 200) 15 rfl rfl rfl rfl 2 2 (by decide)

/-- Claim C9: AND-before-threshold (the code's order) and
AND-after-threshold are inequivalent: on uniform frames 0 → 1 → 3 with
threshold 0, the raw differences are 1 and 2, whose bitwise AND is 0, so
the code's mask is 0 at (0,0); the binarize-then-AND variant binarises
both differences to 255 first and gives 255 there. -/
theorem and_order_matters :
    getInterframeDiff (constImg 3 3 0) (constImg 3 3 1) (constImg 3 3 3) 0
        = .ok (interframePipeline (constImg 3 3 0) (constImg 3 3 1) (constImg 3 3 3) 0)
      ∧ (interframePipeline (constImg 3 3 0) (constImg 3 3 1) (constImg 3 3 3) 0).pix 0 0
        = 0
      ∧ (andAfterThreshold (constImg 3 3 0) (constImg 3 3 1) (constImg 3 3 3) 0).pix 0 0
        = 255 :=
  ⟨getInterframeDiff_ok _ _ _ _ rfl rfl rfl rfl, by decide, by decide⟩

/-- Claim C10: the median filter can promote a pixel whose combined
difference is below the threshold: frames 0 → (3 except 0 at the centre)
→ 0 with threshold 1 give a combined difference of 0 ≤ 1 at the centre
(so it binarises to 0), yet the returned mask is 255 there, because eight
of its nine neighbourhood samples are 255. -/
theorem median_promotes_subthreshold_pixel :
    Nat.land (absd ((constImg 3 3 0).pix 1 1) ((spikeImg 3 3 3 0 1 1).pix 1 1))
        (absd ((spikeImg 3 3 3 0 1 1).pix 1 1) ((constImg 3 3 0).pix 1 1)) ≤ 1
      ∧ (cvThreshold (andImage (absdiffImage (constImg 3 3 0) (spikeImg 3 3 3 0 1 1))
          (absdiffImage (spikeImg 3 3 3 0 1 1) (constImg 3 3 0))) 1 255).pix 1 1 = 0
      ∧ getInterframeDiff (constImg 3 3 0) (spikeImg 3 3 3 0 1 1) (constImg 3 3 0) 1
        = .ok (interframePipeline (constImg 3 3 0) (spikeImg 3 3 3 0 1 1)
            (constImg 3 3 0) 1)
      ∧ (interframePipeline (constImg 3 3 0) (spikeImg 3 3 3 0 1 1) (constImg 3 3 0)
          1).pix 1 1 = 255 :=
  ⟨by decide, by decide, getInterframeDiff_ok _ _ _ _ rfl rfl rfl rfl, by decide⟩
